import Mathlib

/-!
Verification of the sktime fragment consisting of
`sktime/alignment/dtw_python.py` (the two DTW aligner adapters) and
`sktime/contrib/result_collator/classification_results_collator.py`
(the classification result collator with its parameter validation and
enumeration caching).

The Python code is shallowly embedded: pandas data frames become
association lists from column names to rational-valued columns, the
external `dtw` engine and the pairwise distance transformer are abstract
function parameters, exceptions become `Except`, and the mutable
`lru_cache` plus the network become explicit state threaded through the
definitions.  Event lists record which network fetches and engine calls
a piece of code performs, so that ordering and fail-fast properties can
be stated.
-/

namespace SktimeSpec

/-! ## Python runtime fragments needed by the embedding -/

/-- Python exceptions raised by the embedded code, carrying their message. -/
inductive PyError where
  | typeError (msg : String)
  | valueError (msg : String)
  | keyError (key : String)
  | indexError (msg : String)
  | connectionError (url : String)
deriving DecidableEq, Repr

/-- The classes appearing in `dtw_python.py`, for modelling `super(cls, self)`. -/
inductive PyClass where
  | baseAligner
  | alignerDTW
  | alignerDTWdist
deriving DecidableEq, Repr

/-- The superclass chain of each class (`AlignerDTW` and `AlignerDTWdist`
both derive from `BaseAligner`; neither derives from the other). -/
def classAncestors : PyClass → List PyClass
  | .baseAligner => [.baseAligner]
  | .alignerDTW => [.alignerDTW, .baseAligner]
  | .alignerDTWdist => [.alignerDTWdist, .baseAligner]

/-- Python `isinstance`: membership in the ancestor chain. -/
def isInstanceOf (c target : PyClass) : Bool :=
  (classAncestors c).contains target

/-- The message CPython uses when `super(type, obj)` gets a mismatched pair. -/
def superTypeErrMsg : String :=
  "super(type, obj): obj must be an instance or subtype of type"

/-- Python `super(target, self).__init__()`: raises `TypeError` unless
`self` is an instance of `target`.  (The base initializer itself carries
no behaviour relevant to this fragment.) -/
def superInit (target selfClass : PyClass) : Except PyError Unit :=
  if isInstanceOf selfClass target then .ok () else .error (.typeError superTypeErrMsg)

/-! ## String helpers: substring containment and Python list repr -/

/-- Does `hay` start with `needle`?  (Recursion is on the needle, so the
application reduces as soon as the needle is in constructor form.) -/
def charsBeginWith (needle hay : List Char) : Bool :=
  match needle with
  | [] => true
  | b :: bs =>
    match hay with
    | [] => false
    | a :: as => a == b && charsBeginWith bs as

/-- Does the first character list start with the second? -/
def charsStartWith (hay needle : List Char) : Bool :=
  charsBeginWith needle hay

/-- Does the second character list occur contiguously in the first?
(`needle` is the first argument for structural recursion on the haystack.) -/
def charsContainSub (needle : List Char) : List Char → Bool
  | [] => charsStartWith [] needle
  | c :: rest => charsStartWith (c :: rest) needle || charsContainSub needle rest

/-- Python `sub in s` for strings: contiguous substring containment. -/
def strContainsSub (s sub : String) : Bool :=
  charsContainSub sub.toList s.toList

/-- An error message "mentions" a value when it contains it as a substring. -/
def mentionsStr (msg v : String) : Bool :=
  strContainsSub msg v

/-- A single-quote character, as a string. -/
def quo : String := "\x27"

/-- Python `str` of a list of strings, as interpolated into f-strings:
`['a', 'b']`. -/
def pyStrListRepr (l : List String) : String :=
  "[" ++ String.intercalate ", " (l.map (fun s => quo ++ s ++ quo)) ++ "]"

/-! ## Data frames

A pandas `DataFrame` holding one rational-valued column per name is an
association list; `columns.values` is the list of keys in order. -/

abbrev DataFrame := List (String × List ℚ)

/-- `X.columns.values` as a list of column names. -/
def DataFrame.columns (X : DataFrame) : List String :=
  X.map Prod.fst

/-- `X[c].values`: the column named `c` (guarded by membership checks at
every use site in the embedded code). -/
def DataFrame.col (X : DataFrame) (c : String) : List ℚ :=
  match X.lookup c with
  | some v => v
  | none => []

/-! ## The external dtw engine (out of scope, abstract)

The engine is a black box: it receives the call data and returns the
alignment object (`index1`, `index2`, `distance`).  `_fit` results record
the list of engine calls made, so "never delegates" is expressible. -/

/-- One invocation of `dtw.dtw` on two numeric vectors (vector variant). -/
structure DTWCall where
  x : List ℚ
  y : List ℚ
  dist_method : String
  step_pattern : String
  window_type : String
  open_begin : Bool
  open_end : Bool
deriving DecidableEq, Repr

/-- The alignment object returned by `dtw.dtw` (the fields this adapter reads). -/
structure DTWResult where
  index1 : List Nat
  index2 : List Nat
  distance : ℚ
deriving DecidableEq, Repr

/-! ## AlignerDTW (vector variant), from `dtw_python.py` lines 18-186 -/

/-- The constructor arguments of `AlignerDTW.__init__` with their defaults. -/
structure DTWParams where
  dist_method : String
  step_pattern : String
  window_type : String
  open_begin : Bool
  open_end : Bool
  variable_to_align : Option String
deriving DecidableEq, Repr

/-- The default constructor arguments of `AlignerDTW`. -/
def defaultDTWParams : DTWParams :=
  ⟨"euclidean", "symmetric2", "none", false, false, none⟩

/-- The state an `AlignerDTW` instance would hold after `__init__`. -/
structure AlignerDTW where
  dist_method : String
  step_pattern : String
  window_type : String
  open_begin : Bool
  open_end : Bool
  variable_to_align : Option String
deriving DecidableEq, Repr

/-- `AlignerDTW.__init__` (lines 56-73).  Its first statement is
`super(AlignerDTWdist, self).__init__()` with `self` an `AlignerDTW`;
only if that succeeds are the fields assigned. -/
def AlignerDTW.init (p : DTWParams) : Except PyError AlignerDTW :=
  match superInit .alignerDTWdist .alignerDTW with
  | .error e => .error e
  | .ok _ =>
      .ok ⟨p.dist_method, p.step_pattern, p.window_type,
           p.open_begin, p.open_end, p.variable_to_align⟩

/-- Fitted state written by `AlignerDTW._fit`: the stored alignment, the
input pair, and the (possibly defaulted) variable that was aligned. -/
structure FittedDTW where
  alignment : DTWResult
  X1 : DataFrame
  X2 : DataFrame
  variable_to_align : String
deriving Repr

/-- The f-string of lines 110-116: `f"X[i] does not have variable {var}
used for alignment"`, with the sequence tag (`X[0]` or `X[1]`) split off
as the first component. -/
def missingVarMsg (tag var : String) : String :=
  tag ++ " does not have variable " ++ var ++ " used for alignment"

/-- `AlignerDTW._fit` (lines 75-137) given an abstract engine: resolve the
variable to align (first column of `X[0]` when unset), check it is present
in both frames, then delegate the extracted vectors to the engine.  The
first component lists the engine calls performed. -/
def AlignerDTW.fitCore (engine : DTWCall → DTWResult) (p : DTWParams)
    (X1 X2 : DataFrame) : List DTWCall × Except PyError FittedDTW :=
  match
    (match p.variable_to_align with
     | some v => Except.ok v
     | none =>
       match X1.columns with
       | [] => Except.error (PyError.indexError "index 0 is out of bounds for axis 0 with size 0")
       | c :: _ => Except.ok c) with
  | .error e => ([], .error e)
  | .ok var =>
    if (X1.columns.contains var) = false then
      ([], .error (.valueError (missingVarMsg "X[0]" var)))
    else if (X2.columns.contains var) = false then
      ([], .error (.valueError (missingVarMsg "X[1]" var)))
    else
      ([⟨X1.col var, X2.col var, p.dist_method, p.step_pattern, p.window_type,
         p.open_begin, p.open_end⟩],
       .ok ⟨engine ⟨X1.col var, X2.col var, p.dist_method, p.step_pattern, p.window_type,
                    p.open_begin, p.open_end⟩, X1, X2, var⟩)

/-- `AlignerDTW.get_distance` (lines 158-168). -/
def AlignerDTW.get_distance (f : FittedDTW) : ℚ :=
  f.alignment.distance

/-- A 2×2 matrix of rationals as a function, with pointwise update,
mirroring `np.zeros((2, 2))` followed by item assignment. -/
def matSet (m : Fin 2 → Fin 2 → ℚ) (i j : Fin 2) (v : ℚ) : Fin 2 → Fin 2 → ℚ :=
  fun a b => if a == i && b == j then v else m a b

/-- The 2×2 zero matrix, `np.zeros((2, 2))`. -/
def matZero2 : Fin 2 → Fin 2 → ℚ := fun _ _ => 0

/-- `AlignerDTW.get_distance_matrix` (lines 170-186): start from zeros,
assign `[0, 1]` and `[1, 0]` to the alignment distance. -/
def AlignerDTW.get_distance_matrix (f : FittedDTW) : Fin 2 → Fin 2 → ℚ :=
  matSet (matSet matZero2 0 1 f.alignment.distance) 1 0 f.alignment.distance

/-! ## AlignerDTWdist (distance-matrix variant), lines 189-337 -/

/-- A pairwise distance transformer: two frames in, a distance matrix out. -/
abbrev DistTrafo := DataFrame → DataFrame → List (List ℚ)

/-- The state an `AlignerDTWdist` instance holds after `__init__`. -/
structure AlignerDTWdist where
  dist_trafo : DistTrafo
  step_pattern : String
  window_type : String
  open_begin : Bool
  open_end : Bool

/-- `AlignerDTWdist.__init__` (lines 222-241): the `super` call succeeds
(here `self` really is an `AlignerDTWdist`), then a missing `dist_trafo`
raises `ValueError` before anything else; otherwise it is stored. -/
def AlignerDTWdist.init (dist_trafo : Option DistTrafo)
    (step_pattern window_type : String) (open_begin open_end : Bool) :
    Except PyError AlignerDTWdist :=
  match superInit .alignerDTWdist .alignerDTWdist with
  | .error e => .error e
  | .ok _ =>
    match dist_trafo with
    | none => .error (.valueError "No component dist_trafo provided")
    | some t => .ok ⟨t, step_pattern, window_type, open_begin, open_end⟩

/-- One invocation of `dtw.dtw` on a precomputed distance matrix. -/
structure DistCall where
  distmat : List (List ℚ)
  step_pattern : String
  window_type : String
  open_begin : Bool
  open_end : Bool

/-- Fitted state written by `AlignerDTWdist._fit`. -/
structure FittedDTWdist where
  alignment : DTWResult
  X1 : DataFrame
  X2 : DataFrame

/-- `AlignerDTWdist._fit` (lines 243-288): compute the distance matrix via
the stored transformer and delegate it to the engine; no validation occurs. -/
def AlignerDTWdist.fitCore (engine : DistCall → DTWResult) (a : AlignerDTWdist)
    (X1 X2 : DataFrame) : List DistCall × FittedDTWdist :=
  ([⟨a.dist_trafo X1 X2, a.step_pattern, a.window_type, a.open_begin, a.open_end⟩],
   ⟨engine ⟨a.dist_trafo X1 X2, a.step_pattern, a.window_type, a.open_begin, a.open_end⟩,
    X1, X2⟩)

/-- `AlignerDTWdist.get_distance` (lines 309-319), textually identical to
the vector variant's. -/
def AlignerDTWdist.get_distance (f : FittedDTWdist) : ℚ :=
  f.alignment.distance

/-- `AlignerDTWdist.get_distance_matrix` (lines 321-337), textually
identical to the vector variant's. -/
def AlignerDTWdist.get_distance_matrix (f : FittedDTWdist) : Fin 2 → Fin 2 → ℚ :=
  matSet (matSet matZero2 0 1 f.alignment.distance) 1 0 f.alignment.distance

/-! ## The result collator, from `classification_results_collator.py`

The network is a pair of lookup tables: JSON endpoints mapping a URL to
`some` list of records (each record an association list of string keys
and values) or `none` for a fetch/parse failure, and text endpoints
mapping a URL to the raw CSV body.  The process-wide `lru_cache` on
`get_enum_from_url` is an explicit association list threaded through, and
every call reports the list of fetch events it performed. -/

/-- A JSON record: string keys to string values. -/
abbrev JsonRecord := List (String × String)

/-- The outside world: JSON enumeration endpoints and text result endpoints. -/
structure World where
  jsonNet : List (String × Option (List JsonRecord))
  textNet : List (String × String)

/-- `requests.get(url).json()`: `none` models a network or parse failure. -/
def World.jsonGet (w : World) (url : String) : Option (List JsonRecord) :=
  match w.jsonNet.lookup url with
  | some r => r
  | none => none

/-- `requests.get(url).text` for result endpoints (failures are not
modelled here; no claim depends on them). -/
def World.textGet (w : World) (url : String) : String :=
  match w.textNet.lookup url with
  | some r => r
  | none => ""

/-- A network fetch performed by the collator module. -/
inductive FetchEvent where
  | enumFetch (url key : String)
  | resultFetch (url : String)
deriving DecidableEq, Repr

/-- The state of the `lru_cache` on `get_enum_from_url`: memoized results
per `(url, key)` argument pair. -/
abbrev EnumCache := List ((String × String) × List String)

/-- The extraction loop of `get_enum_from_url` (lines 73-74): take
`response[key]` of every record in order; a record without the key raises
`KeyError`. -/
def extractEnum (key : String) : List JsonRecord → Except PyError (List String)
  | [] => .ok []
  | r :: rs =>
    match r.lookup key with
    | none => .error (.keyError key)
    | some v =>
      match extractEnum key rs with
      | .error e => .error e
      | .ok vs => .ok (v :: vs)

/-- `get_enum_from_url` (lines 56-75) under `@lru_cache(maxsize=None)`:
a cache hit returns the memoized list with no fetch; a miss performs one
fetch, and only a successful extraction is memoized (Python's `lru_cache`
caches nothing when the wrapped call raises).  Returns the result, the
updated cache, and the fetch events performed. -/
def getEnumFromUrl (w : World) (cache : EnumCache) (url key : String) :
    Except PyError (List String) × EnumCache × List FetchEvent :=
  match cache.lookup (url, key) with
  | some vs => (.ok vs, cache, [])
  | none =>
    match w.jsonGet url with
    | none => (.error (.connectionError url), cache, [.enumFetch url key])
    | some records =>
      match extractEnum key records with
      | .error e => (.error e, cache, [.enumFetch url key])
      | .ok vs => (.ok vs, cache ++ [((url, key), vs)], [.enumFetch url key])

/-- `PROBLEM_REQUEST_URL` (lines 48-50). -/
def PROBLEM_REQUEST_URL : String :=
  "https://timeseriesclassification.com/JSON/datasetTable.json?order=asc"

/-- `CLASSIFIERS_REQUEST_URL` (lines 51-53). -/
def CLASSIFIERS_REQUEST_URL : String :=
  "https://timeseriesclassification.com/JSON/algorithmTable.json?order=asc"

/-- `ClassificationResultCollator.VALID_TOOLKITS` (line 108). -/
def VALID_TOOLKITS : List String := ["sktime", "tsml"]

/-- `ClassificationResultCollator.VALID_METRICS` (line 109). -/
def VALID_METRICS : List String := ["accuracy", "f1"]

/-- `ClassificationResultCollator.VALID_DOMAIN` (line 112). -/
def VALID_DOMAIN : String := "https://timeseriesclassification.com"

/-- The two class attributes computed eagerly when the class body runs. -/
structure ClassConstants where
  validClassifiers : List String
  validProblems : List String
deriving DecidableEq, Repr

/-- The class-body side effects at module import (lines 110-111):
`VALID_CLASSIFIERS = get_enum_from_url(CLASSIFIERS_REQUEST_URL, "Acronym")`
then `VALID_PROBLEMS = get_enum_from_url(PROBLEM_REQUEST_URL, "Dataset")`,
starting from an empty `lru_cache`. -/
def moduleInit (w : World) :
    Except PyError ClassConstants × EnumCache × List FetchEvent :=
  match getEnumFromUrl w [] CLASSIFIERS_REQUEST_URL "Acronym" with
  | (.error e, c1, ev1) => (.error e, c1, ev1)
  | (.ok vc, c1, ev1) =>
    match getEnumFromUrl w c1 PROBLEM_REQUEST_URL "Dataset" with
    | (.error e, c2, ev2) => (.error e, c2, ev1 ++ ev2)
    | (.ok vp, c2, ev2) => (.ok ⟨vc, vp⟩, c2, ev1 ++ ev2)

/-- A Python value passed to `_check_valid_parameters` as `check_values`:
`None`, a string, or a list whose elements may themselves be `None`. -/
inductive CheckInput where
  | pynone
  | pystr (s : String)
  | pylist (l : List (Option String))
deriving DecidableEq, Repr

/-- The message raised when a `None` value hits the inner `check` (line 222). -/
def noneErrMsg (parameter_name : String) : String :=
  "The parameter " ++ parameter_name ++ " cannot be None"

/-- The message raised when a value is absent from the valid list (lines 224-227). -/
def invalidParamMsg (parameter_name value : String) (valid_list : List String) : String :=
  "The parameter " ++ parameter_name ++ " of value " ++ value ++ " is invalid. " ++
    "Please use a value from " ++ pyStrListRepr valid_list

/-- CPython's message for iterating over `None` (`for val in None`). -/
def noneIterMsg : String := quo ++ "NoneType" ++ quo ++ " object is not iterable"

/-- The inner `check(value)` closure (lines 220-227). -/
def checkOne (valid_list : List String) (parameter_name : String)
    (value : Option String) : Except PyError Unit :=
  match value with
  | none => .error (.typeError (noneErrMsg parameter_name))
  | some v =>
    if valid_list.contains v then .ok ()
    else .error (.typeError (invalidParamMsg parameter_name v valid_list))

/-- The `for val in check_values: check(val)` loop (lines 234-235). -/
def checkEach (valid_list : List String) (parameter_name : String) :
    List (Option String) → Except PyError Unit
  | [] => .ok ()
  | v :: vs =>
    match checkOne valid_list parameter_name v with
    | .error e => .error e
    | .ok _ => checkEach valid_list parameter_name vs

/-- `ClassificationResultCollator._check_valid_parameters` (lines 201-236).
A string equal to the wildcard returns the whole valid list (the source
compares with `is`; for the interned literal `"*"` this coincides with
equality, which the spec directs us to use).  A non-string input is
iterated over, so a bare `None` raises the not-iterable `TypeError`
without ever reaching the inner `check`. -/
def check_valid_parameters (check_values : CheckInput) (valid_list : List String)
    (parameter_name : String) : Except PyError CheckInput :=
  match check_values with
  | .pystr s =>
    if s == "*" then .ok (.pylist (valid_list.map some))
    else
      match checkOne valid_list parameter_name (some s) with
      | .error e => .error e
      | .ok _ => .ok (.pystr s)
  | .pynone => .error (.typeError noneIterMsg)
  | .pylist l =>
    match checkEach valid_list parameter_name l with
    | .error e => .error e
    | .ok _ => .ok (.pylist l)

/-- The collator's per-instance state after `__init__` (lines 114-132). -/
structure Collator where
  urls : List String
  classifiers : CheckInput
  problem_list : CheckInput
  metric : String
  resamples : Int
  toolkit : String
deriving DecidableEq, Repr

/-- The invalid-URL message (lines 147-150). -/
def urlErrMsg (url : String) : String :=
  "The url " ++ url ++ " is invalid. Please use a url from the domain " ++ VALID_DOMAIN

/-- The out-of-range resamples message (lines 171-174).  Note the source
interpolates `self.metric`, not `self.resamples`, into the f-string. -/
def resamplesErrMsg (metric : String) : String :=
  "The number of resamples " ++ metric ++ " is invalid. " ++
    "The number of resamples must be between 1 and 30"

/-- The URL-domain loop of `get_results` (lines 145-150): raise on the
first URL that does not contain the trusted domain as a substring. -/
def checkUrls : List String → Except PyError Unit
  | [] => .ok ()
  | u :: rest =>
    if strContainsSub u VALID_DOMAIN then checkUrls rest
    else .error (.typeError (urlErrMsg u))

/-- A parsed result table: rows of string cells. -/
abbrev Table := List (List String)

/-- Python `str.split` with a single-character separator, on char lists:
`"".split(sep)` is `[""]`, and separators delimit (possibly empty) fields. -/
def splitChars (sep : Char) : List Char → List (List Char)
  | [] => [[]]
  | c :: rest =>
    if c == sep then [] :: splitChars sep rest
    else
      match splitChars sep rest with
      | [] => [[c]]
      | g :: gs => (c :: g) :: gs

/-- Python `s.split(sep)` for a single-character separator. -/
def pySplit (s : String) (sep : Char) : List String :=
  (splitChars sep s.toList).map (fun cs => String.mk cs)

/-- `ClassificationResultCollator._format_result` (lines 183-199): split the
body on newlines, each line on commas; every cell stays a string. -/
def formatResult (response : String) : Table :=
  (pySplit response (Char.ofNat 10)).map (fun line => pySplit line (Char.ofNat 44))

/-- Modelled from the spec: `ResultCollator.get_results`, the base-class
method invoked on line 181, is not among the provided source files.  Per
the spec it performs one fetch per configured URL and parses each raw
text response into a table via `_format_result`. -/
def baseGetResults (w : World) (urls : List String) : List Table × List FetchEvent :=
  (urls.map (fun u => formatResult (w.textGet u)), urls.map FetchEvent.resultFetch)

/-- `ClassificationResultCollator.get_results` (lines 134-181): validate,
in order, the URL domains, the classifiers, the problems, the metric, the
resamples range, and the toolkit, raising at the first violation; only
after all checks pass delegate to the base class for the result fetches.
On success the result carries the values written to `self._classifiers`,
`self._problem_list` and `self.toolkit` together with the tables. -/
def getResults (consts : ClassConstants) (w : World) (c : Collator) :
    Except PyError (CheckInput × CheckInput × CheckInput × List Table) × List FetchEvent :=
  match checkUrls c.urls with
  | .error e => (.error e, [])
  | .ok _ =>
  match check_valid_parameters c.classifiers consts.validClassifiers "classifier" with
  | .error e => (.error e, [])
  | .ok cls =>
  match check_valid_parameters c.problem_list consts.validProblems "problem" with
  | .error e => (.error e, [])
  | .ok probs =>
  match check_valid_parameters (.pystr c.metric) VALID_METRICS "metric" with
  | .error e => (.error e, [])
  | .ok _ =>
  if c.resamples < 1 ∨ c.resamples > 30 then
    (.error (.typeError (resamplesErrMsg c.metric)), [])
  else
  match check_valid_parameters (.pystr c.toolkit) VALID_TOOLKITS "toolkit" with
  | .error e => (.error e, [])
  | .ok tk =>
    ((.ok (cls, probs, tk, (baseGetResults w c.urls).1)), (baseGetResults w c.urls).2)

/-! ## Concrete demonstration data for closed theorems and witnesses -/

/-- A result endpoint inside the trusted domain. -/
def goodUrl : String := "https://timeseriesclassification.com/results.csv"

/-- A demonstration network: both enumeration endpoints answer, and one
result endpoint serves a two-line CSV body. -/
def demoWorld : World where
  jsonNet :=
    [(CLASSIFIERS_REQUEST_URL,
      some [[("Acronym", "BOSS"), ("Name", "Bag of SFA Symbols")], [("Acronym", "TSF")]]),
     (PROBLEM_REQUEST_URL, some [[("Dataset", "GunPoint")]])]
  textNet := [(goodUrl, "1,2\n3,4")]

/-- The class constants `moduleInit` extracts from `demoWorld`. -/
def demoConsts : ClassConstants := ⟨["BOSS", "TSF"], ["GunPoint"]⟩

/-- A collator over a single URL outside the trusted domain. -/
def badUrlCollator : Collator :=
  ⟨["https://evil.example.com/results.csv"], .pystr "*", .pystr "*", "accuracy", 1, "sktime"⟩

/-- A collator over the good URL with chosen parameters. -/
def demoCollator (cls probs : CheckInput) (metric : String) (resamples : Int)
    (toolkit : String) : Collator :=
  ⟨[goodUrl], cls, probs, metric, resamples, toolkit⟩

/-- A world for exercising the enumeration cache: one healthy JSON
endpoint and one that fails to fetch. -/
def enumDemoWorld : World where
  jsonNet :=
    [("https://timeseriesclassification.com/a.json",
      some [[("k", "1"), ("j", "2")], [("k", "3"), ("j", "4")]]),
     ("https://timeseriesclassification.com/b.json", none)]
  textNet := []

/-! ## Helper lemmas about substring containment -/

theorem charsStartWith_self_append (xs ys : List Char) :
    charsStartWith (xs ++ ys) xs = true := by
  induction xs with
  | nil => rfl
  | cons a as ih =>
    simp only [List.cons_append, charsStartWith, charsBeginWith, Bool.and_eq_true,
      beq_self_eq_true, true_and]
    exact ih

theorem charsStartWith_refl (xs : List Char) : charsStartWith xs xs = true := by
  induction xs with
  | nil => rfl
  | cons a as ih =>
    simp only [charsStartWith, charsBeginWith, Bool.and_eq_true, beq_self_eq_true, true_and]
    exact ih

theorem charsStartWith_append_left (needle : List Char) :
    ∀ xs ys, charsStartWith xs needle = true → charsStartWith (xs ++ ys) needle = true := by
  induction needle with
  | nil => intro xs ys _; rfl
  | cons b bs ih =>
    intro xs ys h
    cases xs with
    | nil => simp [charsStartWith, charsBeginWith] at h
    | cons a as =>
      simp only [charsStartWith, charsBeginWith, Bool.and_eq_true] at h
      simp only [List.cons_append, charsStartWith, charsBeginWith, Bool.and_eq_true]
      exact ⟨h.1, ih as ys h.2⟩

theorem charsContainSub_of_startsWith (needle l : List Char)
    (h : charsStartWith l needle = true) : charsContainSub needle l = true := by
  cases l with
  | nil =>
    cases needle with
    | nil => rfl
    | cons b bs => simp [charsStartWith, charsBeginWith] at h
  | cons c rest => simp [charsContainSub, h]

theorem charsContainSub_nil_needle (ys : List Char) : charsContainSub [] ys = true := by
  cases ys with
  | nil => rfl
  | cons c rest => simp [charsContainSub, charsStartWith, charsBeginWith]

theorem charsContainSub_append_right (needle xs ys : List Char)
    (h : charsContainSub needle ys = true) :
    charsContainSub needle (xs ++ ys) = true := by
  induction xs with
  | nil => simpa using h
  | cons x rest ih => simp [charsContainSub, ih]

theorem charsContainSub_append_left (needle : List Char) :
    ∀ xs ys, charsContainSub needle xs = true → charsContainSub needle (xs ++ ys) = true := by
  intro xs
  induction xs with
  | nil =>
    intro ys h
    cases needle with
    | nil => exact charsContainSub_nil_needle _
    | cons b bs => simp [charsContainSub, charsStartWith, charsBeginWith] at h
  | cons x rest ih =>
    intro ys h
    simp only [charsContainSub, Bool.or_eq_true] at h
    rcases h with h | h
    · simp only [List.cons_append, charsContainSub, Bool.or_eq_true]
      exact Or.inl (charsStartWith_append_left _ _ _ h)
    · simp only [List.cons_append, charsContainSub, Bool.or_eq_true]
      exact Or.inr (ih ys h)

theorem strContainsSub_append_self (s t : String) :
    strContainsSub (s ++ t) s = true := by
  show charsContainSub s.toList (s ++ t).toList = true
  have h : (s ++ t).toList = s.toList ++ t.toList := by
    simp [String.toList, String.data_append]
  rw [h]
  exact charsContainSub_of_startsWith _ _ (charsStartWith_self_append _ _)

theorem strContainsSub_self (s : String) : strContainsSub s s = true :=
  charsContainSub_of_startsWith _ _ (charsStartWith_refl _)

theorem strContainsSub_append_right (s t sub : String)
    (h : strContainsSub t sub = true) : strContainsSub (s ++ t) sub = true := by
  show charsContainSub sub.toList (s ++ t).toList = true
  have hl : (s ++ t).toList = s.toList ++ t.toList := by
    simp [String.toList, String.data_append]
  rw [hl]
  exact charsContainSub_append_right _ _ _ h

theorem strContainsSub_append_left (s t sub : String)
    (h : strContainsSub s sub = true) : strContainsSub (s ++ t) sub = true := by
  show charsContainSub sub.toList (s ++ t).toList = true
  have hl : (s ++ t).toList = s.toList ++ t.toList := by
    simp [String.toList, String.data_append]
  rw [hl]
  exact charsContainSub_append_left _ _ _ h

/-- The missing-variable message names the offending sequence tag. -/
theorem missingVarMsg_mentions_tag (tag var : String) :
    mentionsStr (missingVarMsg tag var) tag = true := by
  show strContainsSub (tag ++ " does not have variable " ++ var ++ " used for alignment") tag = true
  exact strContainsSub_append_left _ _ _
    (strContainsSub_append_left _ _ _ (strContainsSub_append_self _ _))

/-- The missing-variable message names the variable it could not find. -/
theorem missingVarMsg_mentions_var (tag var : String) :
    mentionsStr (missingVarMsg tag var) var = true := by
  show strContainsSub (tag ++ " does not have variable " ++ var ++ " used for alignment") var = true
  exact strContainsSub_append_left _ _ _ (strContainsSub_append_right _ _ _ (strContainsSub_self _))

/-! ## Claims about the aligner adapters -/

/-- Claim C2: for every combination of constructor arguments,
`AlignerDTW.__init__` raises `TypeError` before any field is set, because
its first statement is `super(AlignerDTWdist, self).__init__()` and an
`AlignerDTW` instance is not an instance of `AlignerDTWdist`; hence no
vector-variant instance (and so no fit or post-fit query on one) is ever
produced by construction. -/
theorem alignerDTW_init_always_raises (p : DTWParams) :
    AlignerDTW.init p = .error (.typeError superTypeErrMsg)
      ∧ isInstanceOf .alignerDTW .alignerDTWdist = false :=
  ⟨rfl, rfl⟩

/-- Claim C1 (code bug): with the default configuration, the vector-variant
aligner cannot even be constructed — `AlignerDTW.__init__` raises the
`super(type, obj)` `TypeError` — so the claimed successful fit, the
non-empty correspondence table and the non-negative distance are all
unreachable. -/
theorem alignerDTW_default_construction_fails :
    AlignerDTW.init defaultDTWParams = .error (.typeError superTypeErrMsg) :=
  rfl

/-- Claim C9: constructing the matrix-variant aligner with `dist_trafo`
absent raises a `ValueError` immediately at construction, before any fit;
with a capability supplied, construction succeeds and stores it. -/
theorem alignerDTWdist_init_requires_dist_trafo (t : DistTrafo)
    (sp wt : String) (ob oe : Bool) :
    AlignerDTWdist.init none sp wt ob oe
        = .error (.valueError "No component dist_trafo provided")
      ∧ AlignerDTWdist.init (some t) sp wt ob oe = .ok ⟨t, sp, wt, ob, oe⟩ :=
  ⟨rfl, rfl⟩

/-- Claim C8: with a specified target column, the vector-variant fit fails
before any call to the alignment engine when the column is absent from a
sequence — naming `X[0]` when sequence 0 lacks it, and `X[1]` when only
sequence 1 lacks it — and when both sequences have the column it aligns
exactly that column, never falling back to another one. -/
theorem fit_missing_column_errors (engine : DTWCall → DTWResult)
    (p : DTWParams) (X1 X2 : DataFrame) (v : String)
    (hv : p.variable_to_align = some v) :
    (X1.columns.contains v = false →
        AlignerDTW.fitCore engine p X1 X2
          = ([], .error (.valueError (missingVarMsg "X[0]" v)))
          ∧ mentionsStr (missingVarMsg "X[0]" v) "X[0]" = true
          ∧ mentionsStr (missingVarMsg "X[0]" v) v = true)
      ∧ (X1.columns.contains v = true → X2.columns.contains v = false →
          AlignerDTW.fitCore engine p X1 X2
            = ([], .error (.valueError (missingVarMsg "X[1]" v)))
            ∧ mentionsStr (missingVarMsg "X[1]" v) "X[1]" = true
            ∧ mentionsStr (missingVarMsg "X[1]" v) v = true)
      ∧ (X1.columns.contains v = true → X2.columns.contains v = true →
          AlignerDTW.fitCore engine p X1 X2
            = ([⟨X1.col v, X2.col v, p.dist_method, p.step_pattern, p.window_type,
                 p.open_begin, p.open_end⟩],
               .ok ⟨engine ⟨X1.col v, X2.col v, p.dist_method, p.step_pattern,
                            p.window_type, p.open_begin, p.open_end⟩, X1, X2, v⟩)) := by
  refine ⟨fun h1 => ⟨?_, missingVarMsg_mentions_tag _ _, missingVarMsg_mentions_var _ _⟩,
    fun h1 h2 => ⟨?_, missingVarMsg_mentions_tag _ _, missingVarMsg_mentions_var _ _⟩,
    fun h1 h2 => ?_⟩
  · simp only [AlignerDTW.fitCore, hv, h1]
    simp
  · simp only [AlignerDTW.fitCore, hv, h1, h2]
    simp
  · simp only [AlignerDTW.fitCore, hv, h1, h2]
    simp

/-- Witness for C8 at a concrete input: `X[0]` holds only column `b`,
`X[1]` only column `a`, and the target column is `a`. -/
theorem fit_missing_column_errors_witness :
    ((["b"].contains "a" = false →
        AlignerDTW.fitCore (fun _ => ⟨[], [], 0⟩)
            ⟨"euclidean", "symmetric2", "none", false, false, some "a"⟩
            [("b", [(0 : ℚ)])] [("a", [0])]
          = ([], .error (.valueError (missingVarMsg "X[0]" "a")))
          ∧ mentionsStr (missingVarMsg "X[0]" "a") "X[0]" = true
          ∧ mentionsStr (missingVarMsg "X[0]" "a") "a" = true)
      ∧ (["b"].contains "a" = true → ["a"].contains "a" = false →
          AlignerDTW.fitCore (fun _ => ⟨[], [], 0⟩)
              ⟨"euclidean", "symmetric2", "none", false, false, some "a"⟩
              [("b", [(0 : ℚ)])] [("a", [0])]
            = ([], .error (.valueError (missingVarMsg "X[1]" "a")))
            ∧ mentionsStr (missingVarMsg "X[1]" "a") "X[1]" = true
            ∧ mentionsStr (missingVarMsg "X[1]" "a") "a" = true)
      ∧ (["b"].contains "a" = true → ["a"].contains "a" = true →
          AlignerDTW.fitCore (fun _ => ⟨[], [], 0⟩)
              ⟨"euclidean", "symmetric2", "none", false, false, some "a"⟩
              [("b", [(0 : ℚ)])] [("a", [0])]
            = ([⟨[], [0], "euclidean", "symmetric2", "none", false, false⟩],
               .ok ⟨⟨[], [], 0⟩, [("b", [0])], [("a", [0])], "a"⟩))) :=
  fit_missing_column_errors (fun _ => ⟨[], [], 0⟩)
    ⟨"euclidean", "symmetric2", "none", false, false, some "a"⟩
    [("b", [(0 : ℚ)])] [("a", [0])] "a" rfl

/-- Claim C10: after any successful fit, `get_distance_matrix` returns a
2×2 matrix with zero diagonal whose off-diagonal entries both equal the
scalar returned by `get_distance`, for both adapter variants. -/
theorem distance_matrix_zero_diag_mirrored :
    (∀ (engine : DTWCall → DTWResult) (p : DTWParams) (X1 X2 : DataFrame)
        (calls : List DTWCall) (f : FittedDTW),
        AlignerDTW.fitCore engine p X1 X2 = (calls, .ok f) →
        AlignerDTW.get_distance_matrix f 0 0 = 0
          ∧ AlignerDTW.get_distance_matrix f 1 1 = 0
          ∧ AlignerDTW.get_distance_matrix f 0 1 = AlignerDTW.get_distance f
          ∧ AlignerDTW.get_distance_matrix f 1 0 = AlignerDTW.get_distance f)
      ∧ (∀ (engine : DistCall → DTWResult) (a : AlignerDTWdist) (X1 X2 : DataFrame),
          AlignerDTWdist.get_distance_matrix (AlignerDTWdist.fitCore engine a X1 X2).2 0 0 = 0
            ∧ AlignerDTWdist.get_distance_matrix (AlignerDTWdist.fitCore engine a X1 X2).2 1 1 = 0
            ∧ AlignerDTWdist.get_distance_matrix (AlignerDTWdist.fitCore engine a X1 X2).2 0 1
                = AlignerDTWdist.get_distance (AlignerDTWdist.fitCore engine a X1 X2).2
            ∧ AlignerDTWdist.get_distance_matrix (AlignerDTWdist.fitCore engine a X1 X2).2 1 0
                = AlignerDTWdist.get_distance (AlignerDTWdist.fitCore engine a X1 X2).2) := by
  constructor
  · intro engine p X1 X2 calls f _
    refine ⟨?_, ?_, ?_, ?_⟩ <;>
      simp [AlignerDTW.get_distance_matrix, AlignerDTW.get_distance, matSet, matZero2]
  · intro engine a X1 X2
    refine ⟨?_, ?_, ?_, ?_⟩ <;>
      simp [AlignerDTWdist.get_distance_matrix, AlignerDTWdist.get_distance, matSet, matZero2]

/-- Witness for C10 at one concrete successful fit per variant. -/
theorem distance_matrix_zero_diag_mirrored_witness :
    (AlignerDTW.get_distance_matrix ⟨⟨[0], [0], 2⟩, [("a", [0])], [("a", [1])], "a"⟩ 0 0 = 0
        ∧ AlignerDTW.get_distance_matrix ⟨⟨[0], [0], 2⟩, [("a", [0])], [("a", [1])], "a"⟩ 1 1 = 0
        ∧ AlignerDTW.get_distance_matrix ⟨⟨[0], [0], 2⟩, [("a", [0])], [("a", [1])], "a"⟩ 0 1
            = AlignerDTW.get_distance ⟨⟨[0], [0], 2⟩, [("a", [0])], [("a", [1])], "a"⟩
        ∧ AlignerDTW.get_distance_matrix ⟨⟨[0], [0], 2⟩, [("a", [0])], [("a", [1])], "a"⟩ 1 0
            = AlignerDTW.get_distance ⟨⟨[0], [0], 2⟩, [("a", [0])], [("a", [1])], "a"⟩)
      ∧ (AlignerDTWdist.get_distance_matrix
            (AlignerDTWdist.fitCore (fun _ => ⟨[0], [0], 3⟩)
              ⟨fun _ _ => [[0]], "symmetric2", "none", false, false⟩
              [("a", [0])] [("a", [1])]).2 0 0 = 0
          ∧ AlignerDTWdist.get_distance_matrix
              (AlignerDTWdist.fitCore (fun _ => ⟨[0], [0], 3⟩)
                ⟨fun _ _ => [[0]], "symmetric2", "none", false, false⟩
                [("a", [0])] [("a", [1])]).2 1 1 = 0
          ∧ AlignerDTWdist.get_distance_matrix
              (AlignerDTWdist.fitCore (fun _ => ⟨[0], [0], 3⟩)
                ⟨fun _ _ => [[0]], "symmetric2", "none", false, false⟩
                [("a", [0])] [("a", [1])]).2 0 1
              = AlignerDTWdist.get_distance
                  (AlignerDTWdist.fitCore (fun _ => ⟨[0], [0], 3⟩)
                    ⟨fun _ _ => [[0]], "symmetric2", "none", false, false⟩
                    [("a", [0])] [("a", [1])]).2
          ∧ AlignerDTWdist.get_distance_matrix
              (AlignerDTWdist.fitCore (fun _ => ⟨[0], [0], 3⟩)
                ⟨fun _ _ => [[0]], "symmetric2", "none", false, false⟩
                [("a", [0])] [("a", [1])]).2 1 0
              = AlignerDTWdist.get_distance
                  (AlignerDTWdist.fitCore (fun _ => ⟨[0], [0], 3⟩)
                    ⟨fun _ _ => [[0]], "symmetric2", "none", false, false⟩
                    [("a", [0])] [("a", [1])]).2) :=
  ⟨distance_matrix_zero_diag_mirrored.1 (fun _ => ⟨[0], [0], 2⟩) defaultDTWParams
      [("a", [0])] [("a", [1])]
      [⟨[0], [1], "euclidean", "symmetric2", "none", false, false⟩]
      ⟨⟨[0], [0], 2⟩, [("a", [0])], [("a", [1])], "a"⟩ rfl,
   distance_matrix_zero_diag_mirrored.2 (fun _ => ⟨[0], [0], 3⟩)
      ⟨fun _ _ => [[0]], "symmetric2", "none", false, false⟩ [("a", [0])] [("a", [1])]⟩

/-! ## Claims about the result collator -/

/-- When every record has the key, the extraction loop returns exactly the
value under the key of every record, in source order. -/
theorem extractEnum_eq_map (k : String) (recs : List JsonRecord)
    (h : ∀ r ∈ recs, (r.lookup k).isSome = true) :
    extractEnum k recs = .ok (recs.map (fun r => (r.lookup k).getD "")) := by
  induction recs with
  | nil => rfl
  | cons r rs ih =>
    obtain ⟨v, hv⟩ := Option.isSome_iff_exists.mp (h r (List.mem_cons_self r rs))
    have hrest : ∀ x ∈ rs, (x.lookup k).isSome = true :=
      fun x hx => h x (List.mem_cons_of_mem r hx)
    simp [extractEnum, hv, ih hrest]

/-- Association-list lookup skips a block in which the key is absent. -/
theorem lookup_append_none {α β : Type} [BEq α] (l1 l2 : List (α × β)) (a : α)
    (h : l1.lookup a = none) : (l1 ++ l2).lookup a = l2.lookup a := by
  induction l1 with
  | nil => rfl
  | cons p rest ih =>
    obtain ⟨key, val⟩ := p
    by_cases hk : (a == key) = true
    · simp [List.lookup, hk] at h
    · simp only [Bool.not_eq_true] at hk
      simp only [List.cons_append, List.lookup, hk] at h ⊢
      exact ih h

/-- Claim C7: for every `(url, key)` pair, the first enumeration lookup
performs exactly one network fetch and returns the value under the key of
every record of the fetched array in source order, memoizing the result; a
second identical lookup returns the memoized list with no fetch; a lookup
with a different key against the same URL performs a second, independent
fetch; and a failed fetch caches nothing, so a retry fetches again. -/
theorem enum_cache_fetch_behavior
    (w : World) (cache : EnumCache) (u ubad k k2 : String) (recs : List JsonRecord)
    (hfresh : cache.lookup (u, k) = none)
    (hnet : w.jsonGet u = some recs)
    (hall : ∀ r ∈ recs, (r.lookup k).isSome = true)
    (hfresh2 : (cache ++ [((u, k), recs.map (fun r => (r.lookup k).getD ""))]).lookup (u, k2)
        = none)
    (hbadfresh : cache.lookup (ubad, k) = none)
    (hbadnet : w.jsonGet ubad = none) :
    getEnumFromUrl w cache u k
      = (.ok (recs.map (fun r => (r.lookup k).getD "")),
         cache ++ [((u, k), recs.map (fun r => (r.lookup k).getD ""))],
         [.enumFetch u k])
    ∧ getEnumFromUrl w (cache ++ [((u, k), recs.map (fun r => (r.lookup k).getD ""))]) u k
      = (.ok (recs.map (fun r => (r.lookup k).getD "")),
         cache ++ [((u, k), recs.map (fun r => (r.lookup k).getD ""))], [])
    ∧ (getEnumFromUrl w (cache ++ [((u, k), recs.map (fun r => (r.lookup k).getD ""))]) u k2).2.2
      = [.enumFetch u k2]
    ∧ getEnumFromUrl w cache ubad k
      = (.error (.connectionError ubad), cache, [.enumFetch ubad k])
    ∧ (getEnumFromUrl w (getEnumFromUrl w cache ubad k).2.1 ubad k).2.2 = [.enumFetch ubad k] := by
  have hhit : (cache ++ [((u, k), recs.map (fun r => (r.lookup k).getD ""))]).lookup (u, k)
      = some (recs.map (fun r => (r.lookup k).getD "")) := by
    rw [lookup_append_none _ _ _ hfresh]
    simp [List.lookup]
  refine ⟨?_, ?_, ?_, ?_, ?_⟩
  · simp [getEnumFromUrl, hfresh, hnet, extractEnum_eq_map k recs hall]
  · simp [getEnumFromUrl, hhit]
  · cases hE : extractEnum k2 recs <;>
      simp [getEnumFromUrl, hfresh2, hnet, hE]
  · simp [getEnumFromUrl, hbadfresh, hbadnet]
  · simp [getEnumFromUrl, hbadfresh, hbadnet]

/-- Witness for C7 on `enumDemoWorld`: key `k` then key `j` against the
healthy endpoint, and two lookups against the failing endpoint. -/
theorem enum_cache_fetch_behavior_witness :
    getEnumFromUrl enumDemoWorld [] "https://timeseriesclassification.com/a.json" "k"
      = (.ok ["1", "3"],
         [(("https://timeseriesclassification.com/a.json", "k"), ["1", "3"])],
         [.enumFetch "https://timeseriesclassification.com/a.json" "k"])
    ∧ getEnumFromUrl enumDemoWorld
        [(("https://timeseriesclassification.com/a.json", "k"), ["1", "3"])]
        "https://timeseriesclassification.com/a.json" "k"
      = (.ok ["1", "3"],
         [(("https://timeseriesclassification.com/a.json", "k"), ["1", "3"])], [])
    ∧ (getEnumFromUrl enumDemoWorld
        [(("https://timeseriesclassification.com/a.json", "k"), ["1", "3"])]
        "https://timeseriesclassification.com/a.json" "j").2.2
      = [.enumFetch "https://timeseriesclassification.com/a.json" "j"]
    ∧ getEnumFromUrl enumDemoWorld [] "https://timeseriesclassification.com/b.json" "k"
      = (.error (.connectionError "https://timeseriesclassification.com/b.json"), [],
         [.enumFetch "https://timeseriesclassification.com/b.json" "k"])
    ∧ (getEnumFromUrl enumDemoWorld
        (getEnumFromUrl enumDemoWorld [] "https://timeseriesclassification.com/b.json" "k").2.1
        "https://timeseriesclassification.com/b.json" "k").2.2
      = [.enumFetch "https://timeseriesclassification.com/b.json" "k"] :=
  enum_cache_fetch_behavior enumDemoWorld []
    "https://timeseriesclassification.com/a.json"
    "https://timeseriesclassification.com/b.json" "k" "j"
    [[("k", "1"), ("j", "2")], [("k", "3"), ("j", "4")]]
    rfl rfl (by decide) rfl rfl rfl

/-- The validation loop succeeds when every element is a string contained
in the valid list. -/
theorem checkEach_ok_of_all (vs : List String) (n : String) :
    ∀ l : List (Option String),
      l.all (fun o => (o.map vs.contains).getD false) = true →
      checkEach vs n l = .ok () := by
  intro l
  induction l with
  | nil => intro _; rfl
  | cons o rest ih =>
    intro h
    simp only [List.all_cons, Bool.and_eq_true] at h
    obtain ⟨ho, hrest⟩ := h
    cases o with
    | none => simp [Option.map] at ho
    | some x =>
      simp only [Option.map, Option.getD] at ho
      have hx : x ∈ vs := by simpa using ho
      simp [checkEach, checkOne, hx, ih hrest]

/-- Claim C6 counterexample: `_check_valid_parameters(None, ["a"], "x")`
does fail, but with CPython's not-iterable `TypeError` (the non-string
`None` goes straight into the `for val in check_values` loop), whose
message does not mention the parameter name `x`. -/
theorem single_none_not_iterable_counterexample :
    check_valid_parameters .pynone ["a"] "x" = .error (.typeError noneIterMsg)
      ∧ mentionsStr noneIterMsg "x" = false :=
  ⟨rfl, by decide⟩

/-- Claim C6 (amended): the wildcard returns the whole reference list; a
list element that is `None` raises an error mentioning the parameter name;
a single string value or leading list element absent from the reference
list raises an error mentioning the value and listing the reference list;
values all present are returned unchanged — but a single `None` value
raises the not-iterable `TypeError`, whose message does not involve the
parameter name, rather than the descriptive `None` error. -/
theorem check_valid_parameters_amended
    (vs : List String) (n v : String) (l : List (Option String))
    (hstar : (v == "*") = false) :
    check_valid_parameters (.pystr "*") vs n = .ok (.pylist (vs.map some))
    ∧ check_valid_parameters .pynone vs n = .error (.typeError noneIterMsg)
    ∧ (check_valid_parameters (.pylist (none :: l)) vs n
        = .error (.typeError (noneErrMsg n))
       ∧ mentionsStr (noneErrMsg n) n = true)
    ∧ (vs.contains v = false →
        check_valid_parameters (.pystr v) vs n
            = .error (.typeError (invalidParamMsg n v vs))
        ∧ check_valid_parameters (.pylist (some v :: l)) vs n
            = .error (.typeError (invalidParamMsg n v vs))
        ∧ mentionsStr (invalidParamMsg n v vs) v = true
        ∧ mentionsStr (invalidParamMsg n v vs) n = true
        ∧ mentionsStr (invalidParamMsg n v vs) (pyStrListRepr vs) = true)
    ∧ (vs.contains v = true →
        check_valid_parameters (.pystr v) vs n = .ok (.pystr v))
    ∧ (l.all (fun o => (o.map vs.contains).getD false) = true →
        check_valid_parameters (.pylist l) vs n = .ok (.pylist l)) := by
  refine ⟨rfl, rfl, ⟨rfl, ?_⟩, fun hv => ⟨?_, ?_, ?_, ?_, ?_⟩, fun hv => ?_, fun hall => ?_⟩
  · show strContainsSub ("The parameter " ++ n ++ " cannot be None") n = true
    exact strContainsSub_append_left _ _ _
      (strContainsSub_append_right _ _ _ (strContainsSub_self _))
  · have hv2 : ¬ v ∈ vs := by simpa using hv
    simp [check_valid_parameters, checkOne, hstar, hv2]
  · have hv2 : ¬ v ∈ vs := by simpa using hv
    simp [check_valid_parameters, checkEach, checkOne, hv2]
  · show strContainsSub ("The parameter " ++ n ++ " of value " ++ v ++ " is invalid. "
      ++ "Please use a value from " ++ pyStrListRepr vs) v = true
    exact strContainsSub_append_left _ _ _ (strContainsSub_append_left _ _ _
      (strContainsSub_append_left _ _ _
        (strContainsSub_append_right _ _ _ (strContainsSub_self _))))
  · show strContainsSub ("The parameter " ++ n ++ " of value " ++ v ++ " is invalid. "
      ++ "Please use a value from " ++ pyStrListRepr vs) n = true
    exact strContainsSub_append_left _ _ _ (strContainsSub_append_left _ _ _
      (strContainsSub_append_left _ _ _ (strContainsSub_append_left _ _ _
        (strContainsSub_append_left _ _ _
          (strContainsSub_append_right _ _ _ (strContainsSub_self _))))))
  · show strContainsSub ("The parameter " ++ n ++ " of value " ++ v ++ " is invalid. "
      ++ "Please use a value from " ++ pyStrListRepr vs) (pyStrListRepr vs) = true
    exact strContainsSub_append_right _ _ _ (strContainsSub_self _)
  · have hv2 : v ∈ vs := by simpa using hv
    simp [check_valid_parameters, checkOne, hstar, hv2]
  · simp [check_valid_parameters, checkEach_ok_of_all vs n l hall]

/-- Witness for C6 (amended) at `vs = ["a", "b"]`, `n = "x"`, `v = "z"`,
`l = [some "a"]`. -/
theorem check_valid_parameters_amended_witness :
    check_valid_parameters (.pystr "*") ["a", "b"] "x"
        = .ok (.pylist [some "a", some "b"])
    ∧ check_valid_parameters .pynone ["a", "b"] "x" = .error (.typeError noneIterMsg)
    ∧ (check_valid_parameters (.pylist [none, some "a"]) ["a", "b"] "x"
        = .error (.typeError (noneErrMsg "x"))
       ∧ mentionsStr (noneErrMsg "x") "x" = true)
    ∧ ((["a", "b"].contains "z") = false →
        check_valid_parameters (.pystr "z") ["a", "b"] "x"
            = .error (.typeError (invalidParamMsg "x" "z" ["a", "b"]))
        ∧ check_valid_parameters (.pylist [some "z", some "a"]) ["a", "b"] "x"
            = .error (.typeError (invalidParamMsg "x" "z" ["a", "b"]))
        ∧ mentionsStr (invalidParamMsg "x" "z" ["a", "b"]) "z" = true
        ∧ mentionsStr (invalidParamMsg "x" "z" ["a", "b"]) "x" = true
        ∧ mentionsStr (invalidParamMsg "x" "z" ["a", "b"]) (pyStrListRepr ["a", "b"]) = true)
    ∧ ((["a", "b"].contains "z") = true →
        check_valid_parameters (.pystr "z") ["a", "b"] "x" = .ok (.pystr "z"))
    ∧ (([some "a"] : List (Option String)).all
          (fun o => (o.map (["a", "b"].contains)).getD false) = true →
        check_valid_parameters (.pylist [some "a"]) ["a", "b"] "x"
          = .ok (.pylist [some "a"])) :=
  check_valid_parameters_amended ["a", "b"] "x" "z" [some "a"] (by decide)

/-- Claim C3 counterexample: the classifier and problem enumerations are
not populated lazily during validation — the class body fetches them at
module import, before any collator exists, and a `get_results` call on a
collator with one bad URL performs no fetch at all (the error is raised
first, but the enumeration fetches already happened earlier). -/
theorem enum_populated_at_import_counterexample :
    (moduleInit demoWorld).2.2
      = [.enumFetch CLASSIFIERS_REQUEST_URL "Acronym",
         .enumFetch PROBLEM_REQUEST_URL "Dataset"]
    ∧ (moduleInit demoWorld).2.2 ≠ []
    ∧ getResults demoConsts demoWorld badUrlCollator
        = (.error (.typeError (urlErrMsg "https://evil.example.com/results.csv")), []) :=
  ⟨rfl, by decide, rfl⟩

/-- Claim C3 (amended): with exactly one URL lacking the trusted domain
substring, `get_results` raises the invalid-source error naming that URL
and performs no fetch during the call; the classifier and problem
enumerations are populated eagerly at module import (class-definition)
time — in that order — not lazily as a side effect of validation. -/
theorem bad_url_error_and_eager_enums
    (consts : ClassConstants) (w w2 : World) (c : Collator) (u : String)
    (hurls : c.urls = [u])
    (hbad : strContainsSub u VALID_DOMAIN = false)
    (rc rp : List JsonRecord) (vc vp : List String)
    (hc : w2.jsonGet CLASSIFIERS_REQUEST_URL = some rc)
    (hce : extractEnum "Acronym" rc = .ok vc)
    (hp : w2.jsonGet PROBLEM_REQUEST_URL = some rp)
    (hpe : extractEnum "Dataset" rp = .ok vp) :
    getResults consts w c = (.error (.typeError (urlErrMsg u)), [])
    ∧ mentionsStr (urlErrMsg u) u = true
    ∧ (moduleInit w2).2.2
        = [.enumFetch CLASSIFIERS_REQUEST_URL "Acronym",
           .enumFetch PROBLEM_REQUEST_URL "Dataset"]
    ∧ (moduleInit w2).1 = .ok ⟨vc, vp⟩ := by
  have h1 : getEnumFromUrl w2 [] CLASSIFIERS_REQUEST_URL "Acronym"
      = (.ok vc, [((CLASSIFIERS_REQUEST_URL, "Acronym"), vc)],
         [.enumFetch CLASSIFIERS_REQUEST_URL "Acronym"]) := by
    simp [getEnumFromUrl, List.lookup, hc, hce]
  have hlk : ([((CLASSIFIERS_REQUEST_URL, "Acronym"), vc)] : EnumCache).lookup
      (PROBLEM_REQUEST_URL, "Dataset") = none := by
    simp [List.lookup,
      show ((PROBLEM_REQUEST_URL, "Dataset") == (CLASSIFIERS_REQUEST_URL, "Acronym")) = false
        from by decide]
  have h2 : getEnumFromUrl w2 [((CLASSIFIERS_REQUEST_URL, "Acronym"), vc)]
      PROBLEM_REQUEST_URL "Dataset"
      = (.ok vp,
         [((CLASSIFIERS_REQUEST_URL, "Acronym"), vc), ((PROBLEM_REQUEST_URL, "Dataset"), vp)],
         [.enumFetch PROBLEM_REQUEST_URL "Dataset"]) := by
    simp [getEnumFromUrl, hlk, hp, hpe]
  refine ⟨?_, ?_, ?_, ?_⟩
  · simp [getResults, hurls, checkUrls, hbad]
  · show strContainsSub ("The url " ++ u ++ " is invalid. Please use a url from the domain "
      ++ VALID_DOMAIN) u = true
    exact strContainsSub_append_left _ _ _ (strContainsSub_append_left _ _ _
      (strContainsSub_append_right _ _ _ (strContainsSub_self _)))
  · simp [moduleInit, h1, h2]
  · simp [moduleInit, h1, h2]

/-- Witness for C3 (amended) on `demoWorld` and the bad-URL collator. -/
theorem bad_url_error_and_eager_enums_witness :
    getResults demoConsts demoWorld badUrlCollator
      = (.error (.typeError (urlErrMsg "https://evil.example.com/results.csv")), [])
    ∧ mentionsStr (urlErrMsg "https://evil.example.com/results.csv")
        "https://evil.example.com/results.csv" = true
    ∧ (moduleInit demoWorld).2.2
        = [.enumFetch CLASSIFIERS_REQUEST_URL "Acronym",
           .enumFetch PROBLEM_REQUEST_URL "Dataset"]
    ∧ (moduleInit demoWorld).1 = .ok ⟨["BOSS", "TSF"], ["GunPoint"]⟩ :=
  bad_url_error_and_eager_enums demoConsts demoWorld demoWorld badUrlCollator
    "https://evil.example.com/results.csv" rfl (by decide)
    [[("Acronym", "BOSS"), ("Name", "Bag of SFA Symbols")], [("Acronym", "TSF")]]
    [[("Dataset", "GunPoint")]] ["BOSS", "TSF"] ["GunPoint"] rfl rfl rfl rfl

/-- Claim C4 (code bug): `get_results` with `resamples` 31 (or 0) raises
the range `TypeError` and performs zero result-data fetches, and values 1
and 30 pass the range check — but the message interpolates `self.metric`
(here `accuracy`), not the offending resamples value, so it does not name
31 as the claim and the spec require. -/
theorem resamples_message_names_metric_bug :
    getResults demoConsts demoWorld
        (demoCollator (.pystr "*") (.pystr "*") "accuracy" 31 "sktime")
      = (.error (.typeError (resamplesErrMsg "accuracy")), [])
    ∧ mentionsStr (resamplesErrMsg "accuracy") "31" = false
    ∧ mentionsStr (resamplesErrMsg "accuracy") "accuracy" = true
    ∧ getResults demoConsts demoWorld
        (demoCollator (.pystr "*") (.pystr "*") "accuracy" 0 "sktime")
      = (.error (.typeError (resamplesErrMsg "accuracy")), [])
    ∧ getResults demoConsts demoWorld
        (demoCollator (.pystr "*") (.pystr "*") "accuracy" 1 "sktime")
      = (.ok (.pylist [some "BOSS", some "TSF"], .pylist [some "GunPoint"],
              .pystr "sktime", [[["1", "2"], ["3", "4"]]]),
         [.resultFetch goodUrl])
    ∧ getResults demoConsts demoWorld
        (demoCollator (.pystr "*") (.pystr "*") "accuracy" 30 "sktime")
      = (.ok (.pylist [some "BOSS", some "TSF"], .pylist [some "GunPoint"],
              .pystr "sktime", [[["1", "2"], ["3", "4"]]]),
         [.resultFetch goodUrl]) :=
  ⟨rfl, by decide, by decide, rfl, rfl, rfl⟩

/-- Claim C5: `get_results` validates, in order, URL domains, classifiers,
problems, metric, resamples range, toolkit; the first violation raises
immediately with no result-data fetch, and one fetch per configured URL
happens only after every check passes. -/
theorem get_results_validation_order
    (consts : ClassConstants) (w : World)
    (ca : Collator) (ea : PyError)
    (ha : checkUrls ca.urls = .error ea)
    (cb : Collator) (eb : PyError)
    (hb1 : checkUrls cb.urls = .ok ())
    (hb2 : check_valid_parameters cb.classifiers consts.validClassifiers "classifier"
        = .error eb)
    (cc : Collator) (clsc : CheckInput) (ec : PyError)
    (hc1 : checkUrls cc.urls = .ok ())
    (hc2 : check_valid_parameters cc.classifiers consts.validClassifiers "classifier"
        = .ok clsc)
    (hc3 : check_valid_parameters cc.problem_list consts.validProblems "problem" = .error ec)
    (cd : Collator) (clsd probsd : CheckInput) (ed : PyError)
    (hd1 : checkUrls cd.urls = .ok ())
    (hd2 : check_valid_parameters cd.classifiers consts.validClassifiers "classifier"
        = .ok clsd)
    (hd3 : check_valid_parameters cd.problem_list consts.validProblems "problem" = .ok probsd)
    (hd4 : check_valid_parameters (.pystr cd.metric) VALID_METRICS "metric" = .error ed)
    (ce : Collator) (clse probse mve : CheckInput)
    (he1 : checkUrls ce.urls = .ok ())
    (he2 : check_valid_parameters ce.classifiers consts.validClassifiers "classifier"
        = .ok clse)
    (he3 : check_valid_parameters ce.problem_list consts.validProblems "problem" = .ok probse)
    (he4 : check_valid_parameters (.pystr ce.metric) VALID_METRICS "metric" = .ok mve)
    (he5 : ce.resamples < 1 ∨ ce.resamples > 30)
    (cf : Collator) (clsf probsf mvf : CheckInput) (ef : PyError)
    (hf1 : checkUrls cf.urls = .ok ())
    (hf2 : check_valid_parameters cf.classifiers consts.validClassifiers "classifier"
        = .ok clsf)
    (hf3 : check_valid_parameters cf.problem_list consts.validProblems "problem" = .ok probsf)
    (hf4 : check_valid_parameters (.pystr cf.metric) VALID_METRICS "metric" = .ok mvf)
    (hf5 : ¬(cf.resamples < 1 ∨ cf.resamples > 30))
    (hf6 : check_valid_parameters (.pystr cf.toolkit) VALID_TOOLKITS "toolkit" = .error ef)
    (cg : Collator) (clsg probsg mvg tkg : CheckInput)
    (hg1 : checkUrls cg.urls = .ok ())
    (hg2 : check_valid_parameters cg.classifiers consts.validClassifiers "classifier"
        = .ok clsg)
    (hg3 : check_valid_parameters cg.problem_list consts.validProblems "problem" = .ok probsg)
    (hg4 : check_valid_parameters (.pystr cg.metric) VALID_METRICS "metric" = .ok mvg)
    (hg5 : ¬(cg.resamples < 1 ∨ cg.resamples > 30))
    (hg6 : check_valid_parameters (.pystr cg.toolkit) VALID_TOOLKITS "toolkit" = .ok tkg) :
    getResults consts w ca = (.error ea, [])
    ∧ getResults consts w cb = (.error eb, [])
    ∧ getResults consts w cc = (.error ec, [])
    ∧ getResults consts w cd = (.error ed, [])
    ∧ getResults consts w ce = (.error (.typeError (resamplesErrMsg ce.metric)), [])
    ∧ getResults consts w cf = (.error ef, [])
    ∧ getResults consts w cg
        = (.ok (clsg, probsg, tkg, cg.urls.map (fun u => formatResult (w.textGet u))),
           cg.urls.map FetchEvent.resultFetch) := by
  refine ⟨?_, ?_, ?_, ?_, ?_, ?_, ?_⟩
  · simp [getResults, ha]
  · simp [getResults, hb1, hb2]
  · simp [getResults, hc1, hc2, hc3]
  · simp [getResults, hd1, hd2, hd3, hd4]
  · simp [getResults, he1, he2, he3, he4, he5]
  · simp [getResults, hf1, hf2, hf3, hf4, hf5, hf6]
  · simp [getResults, hg1, hg2, hg3, hg4, hg5, hg6, baseGetResults]

/-- Witness for C5: one concrete collator per scenario, all over
`demoWorld` and `demoConsts`. -/
theorem get_results_validation_order_witness :
    getResults demoConsts demoWorld badUrlCollator
      = (.error (.typeError (urlErrMsg "https://evil.example.com/results.csv")), [])
    ∧ getResults demoConsts demoWorld
        (demoCollator (.pystr "XYZ") (.pystr "*") "accuracy" 1 "sktime")
      = (.error (.typeError (invalidParamMsg "classifier" "XYZ" ["BOSS", "TSF"])), [])
    ∧ getResults demoConsts demoWorld
        (demoCollator (.pystr "*") (.pystr "Nope") "accuracy" 1 "sktime")
      = (.error (.typeError (invalidParamMsg "problem" "Nope" ["GunPoint"])), [])
    ∧ getResults demoConsts demoWorld
        (demoCollator (.pystr "*") (.pystr "*") "mse" 1 "sktime")
      = (.error (.typeError (invalidParamMsg "metric" "mse" ["accuracy", "f1"])), [])
    ∧ getResults demoConsts demoWorld
        (demoCollator (.pystr "*") (.pystr "*") "accuracy" 0 "sktime")
      = (.error (.typeError (resamplesErrMsg "accuracy")), [])
    ∧ getResults demoConsts demoWorld
        (demoCollator (.pystr "*") (.pystr "*") "accuracy" 1 "weka")
      = (.error (.typeError (invalidParamMsg "toolkit" "weka" ["sktime", "tsml"])), [])
    ∧ getResults demoConsts demoWorld
        (demoCollator (.pystr "*") (.pystr "*") "accuracy" 1 "sktime")
      = (.ok (.pylist [some "BOSS", some "TSF"], .pylist [some "GunPoint"],
              .pystr "sktime",
              [goodUrl].map (fun u => formatResult (demoWorld.textGet u))),
         [goodUrl].map FetchEvent.resultFetch) :=
  get_results_validation_order demoConsts demoWorld
    badUrlCollator (.typeError (urlErrMsg "https://evil.example.com/results.csv")) rfl
    (demoCollator (.pystr "XYZ") (.pystr "*") "accuracy" 1 "sktime")
    (.typeError (invalidParamMsg "classifier" "XYZ" ["BOSS", "TSF"])) rfl rfl
    (demoCollator (.pystr "*") (.pystr "Nope") "accuracy" 1 "sktime")
    (.pylist [some "BOSS", some "TSF"])
    (.typeError (invalidParamMsg "problem" "Nope" ["GunPoint"])) rfl rfl rfl
    (demoCollator (.pystr "*") (.pystr "*") "mse" 1 "sktime")
    (.pylist [some "BOSS", some "TSF"]) (.pylist [some "GunPoint"])
    (.typeError (invalidParamMsg "metric" "mse" ["accuracy", "f1"])) rfl rfl rfl rfl
    (demoCollator (.pystr "*") (.pystr "*") "accuracy" 0 "sktime")
    (.pylist [some "BOSS", some "TSF"]) (.pylist [some "GunPoint"]) (.pystr "accuracy")
    rfl rfl rfl rfl (by decide)
    (demoCollator (.pystr "*") (.pystr "*") "accuracy" 1 "weka")
    (.pylist [some "BOSS", some "TSF"]) (.pylist [some "GunPoint"]) (.pystr "accuracy")
    (.typeError (invalidParamMsg "toolkit" "weka" ["sktime", "tsml"]))
    rfl rfl rfl rfl (by decide) rfl
    (demoCollator (.pystr "*") (.pystr "*") "accuracy" 1 "sktime")
    (.pylist [some "BOSS", some "TSF"]) (.pylist [some "GunPoint"]) (.pystr "accuracy")
    (.pystr "sktime") rfl rfl rfl rfl (by decide) rfl

end SktimeSpec
